import Mathlib

/-!
Shallow embedding of OctoScreen's `src/ui/ui.go`: the connection-state
reconciliation loop (`verifyConnection`), the panel navigator
(`Add` / `Remove` / `GoHistory`), the constructor `New`, and the
user-facing error formatter `errToUser`.

Time is modelled in nanoseconds (Go `time.Duration` resolution); machine
side effects (GTK attach/detach, show/hide, sd_notify, the OctoPrint
connect command, log lines) are recorded as an explicit event trace.
-/

namespace OctoScreen

/-- Nanoseconds in one second (Go `time.Second`). -/
def secondNs : Nat := 1000000000

/-- Embeds `var errMercyPeriod = time.Second * 30` (ui.go line 116), in ns. -/
def errMercyPeriod : Nat := 30 * secondNs

/-- Result of the connection status query.  The source treats
`octoprint.ConnectionState` (an external library type) as opaque and only
asks it the five predicates below plus its raw label string
(`string(s.Current.State)`), so we model it as a record of those answers. -/
structure ConnectionState where
  isOperational : Bool
  isPrinting : Bool
  isError : Bool
  isOffline : Bool
  isConnecting : Bool
  label : String
deriving Repr, DecidableEq

/-- A displayed panel.  Modelled from the spec: the `Panel` interface
(`Show`, `Hide`, `Grid`, `Parent`) lives outside `src/ui/ui.go`; the spec
describes a panel as an identity plus a nullable parent back-reference.
Identity of a panel is equality of this tree value. -/
inductive Panel : Type where
  | root (id : Nat)
  | child (id : Nat) (par : Panel)
deriving Repr, DecidableEq

/-- The `Parent()` capability of a panel (none means top of the stack). -/
def Panel.parent : Panel → Option Panel
  | .root _ => none
  | .child _ p => some p

/-- Observable side effects of the core, in program order. -/
inductive Event : Type where
  | sdNotify (m : String)
  | connectAttempt
  | logInfo (m : String)
  | Detach (p : Panel)
  | Hide (p : Panel)
  | Show (p : Panel)
  | Attach (p : Panel)
deriving Repr, DecidableEq

/-- An event is a navigator event when it touches the display slot or a
panel's visibility. -/
def Event.isNav : Event → Bool
  | .Detach _ => true
  | .Hide _ => true
  | .Show _ => true
  | .Attach _ => true
  | _ => false

/-- The mutable fields of the `UI` struct that the core reads or writes,
plus the construction-time data (`endpoint`, `apiKey` stored in the
`octoprint.Client`, the timestamp `t`).  `splashLabel` is the text of the
splash panel's label (`ui.s.Label`); `nextId` feeds fresh panel
identities for `IdleStatusPanel` / `PrintStatusPanel` construction. -/
structure UI where
  endpoint : String
  apiKey : String
  state : Option ConnectionState
  uiState : String
  current : Option Panel
  splashLabel : String
  splashPanel : Panel
  t : Nat
  width : Int
  height : Int
  scaleFactor : Int
  nextId : Nat
deriving Repr, DecidableEq

/-- `WindowHeight = 480` (ui.go line 19). -/
def WindowHeight : Int := 480

/-- `WindowWidth = 800` (ui.go line 20). -/
def WindowWidth : Int := 800

/-- Embeds `New(endpoint, key string, width, height int)` (ui.go lines
49-79).  `t0` is the wall-clock value `time.Now()` observed there, in ns.
Fields the constructor does not set (`UIState`, `Current`, the splash
label) start at their Go zero values. -/
def New (endpoint key : String) (width height : Int) (t0 : Nat) : UI :=
  let width2 := if width == 0 || height == 0 then WindowWidth else width
  let height2 := if width == 0 || height == 0 then WindowHeight else height
  { endpoint := endpoint
    apiKey := key
    state := none
    uiState := ""
    current := none
    splashLabel := ""
    splashPanel := Panel.root 0
    t := t0
    width := width2
    height := height2
    scaleFactor := if width2 > 480 then 2 else if width2 > 1000 then 3 else 1
    nextId := 1 }

/-- Embeds `Add(p Panel)` (ui.go lines 178-187) together with
`Remove` (lines 189-192): detach the old panel's grid from the display
slot, hide it (deferred, so after the detach), then install, show and
attach the new panel.  Returns the updated state and the event trace. -/
def UI.Add (ui : UI) (p : Panel) : UI × List Event :=
  match ui.current with
  | some c =>
    ({ ui with current := some p },
      [Event.Detach c, Event.Hide c, Event.Show p, Event.Attach p])
  | none =>
    ({ ui with current := some p }, [Event.Show p, Event.Attach p])

/-- Embeds `GoHistory()` (ui.go lines 194-196): `ui.Add(ui.Current.Parent())`.
Returns `none` where the Go code would dereference a nil panel (no current
panel, or a current panel whose parent is nil being shown). -/
def UI.GoHistory (ui : UI) : Option (UI × List Event) :=
  match ui.current with
  | none => none
  | some c =>
    match c.parent with
    | none => none
    | some par => some (ui.Add par)

/-- Substring containment, the model of Go `strings.Contains`. -/
def containsSubstr (s pat : String) : Bool := decide (pat.data <:+: s.data)

/-- Model of `fmt` rendering a string with the `%q` verb: the string in
double quotes, escaping quote and backslash characters (enough for the
ASCII-printable endpoints the program handles). -/
def goQuoteChar (c : Char) : String :=
  if c = '"' then "\\\"" else if c = '\\' then "\\\\" else String.singleton c

/-- Quote a whole string as `%q` does. -/
def goQuote (s : String) : String :=
  "\"" ++ String.join (s.data.map goQuoteChar) ++ "\""

/-- Model of `fmt` rendering a `bool` with the `%v` verb. -/
def goBool (b : Bool) : String := if b then "true" else "false"

/-- Embeds `errToUser(err error)` (ui.go lines 198-208), with the fields
it reads from the receiver (`ui.Printer.Endpoint`, `ui.Printer.APIKey`)
made explicit parameters; `errText` is `err.Error()`. -/
def errToUser (endpoint apiKey errText : String) : String :=
  if containsSubstr errText "connection refused" then
    "Unable to connect to " ++ goQuote endpoint ++ " (Key: " ++
      goBool (apiKey != "") ++ "), \nmaybe OctoPrint not running?"
  else
    "Unexpected error: " ++ errText

/-- The same formatter with the key replaced by the one bit the source
actually consults, `ui.Printer.APIKey != ""`. -/
def errToUserFlag (endpoint : String) (keyProvided : Bool) (errText : String) : String :=
  if containsSubstr errText "connection refused" then
    "Unable to connect to " ++ goQuote endpoint ++ " (Key: " ++
      goBool keyProvided ++ "), \nmaybe OctoPrint not running?"
  else
    "Unexpected error: " ++ errText

/-- External inputs consumed by one tick of `verifyConnection`: the result
of the `ConnectionRequest` (`err.Error()` text on failure), the result of
the `ConnectRequest` when one is issued, and the wall clock `time.Now()`
in ns used by `time.Since(ui.t)`. -/
structure TickInput where
  poll : Except String ConnectionState
  connectErr : Option String
  now : Nat

/-- Lines 122-149 of `verifyConnection`: record the sample, classify it
into the tentative `newUiState`, and update the splash label.  Returns the
updated state, the classified mode string and the non-navigation events. -/
def classifyPoll (ui : UI) (inp : TickInput) : UI × String × List Event :=
  match inp.poll with
  | .ok s =>
    let ui1 := { ui with state := some s }
    if s.isOperational then (ui1, "idle", [])
    else if s.isPrinting then (ui1, "printing", [])
    else if s.isError || s.isOffline then
      match inp.connectErr with
      | some e =>
        ({ ui1 with splashLabel := "Error connecting to printer: " ++ e },
          "splash", [Event.connectAttempt])
      | none => (ui1, "splash", [Event.connectAttempt])
    else if s.isConnecting then
      ({ ui1 with splashLabel := s.label }, "splash", [])
    else (ui1, "splash", [])
  | .error e =>
    let ui1 :=
      if inp.now - ui.t > errMercyPeriod then
        { ui with splashLabel := errToUser ui.endpoint ui.apiKey e }
      else ui
    (ui1, "splash", [])

/-- Fresh panel for `IdleStatusPanel(ui)` / `PrintStatusPanel(ui)`.
Modelled from the spec: those constructors are outside `src/ui/ui.go`;
§4.2 says the reconciler instantiates the panel for the new mode. -/
def UI.freshPanel (ui : UI) : Panel × UI :=
  (Panel.root ui.nextId, { ui with nextId := ui.nextId + 1 })

/-- Lines 151-166 of `verifyConnection`: the early return when the
classified mode equals the recorded one, otherwise the `switch` that
installs the panel for the new mode; the deferred
`ui.UIState = newUiState` assignment runs on every path. -/
def installMode (ui1 : UI) (newUiState : String) : UI × List Event :=
  if newUiState = ui1.uiState then
    ({ ui1 with uiState := newUiState }, [])
  else
    let step :=
      if newUiState = "idle" then
        let pr := ui1.freshPanel
        let ar := pr.2.Add pr.1
        (ar.1, Event.logInfo "Printer is ready" :: ar.2)
      else if newUiState = "printing" then
        let pr := ui1.freshPanel
        let ar := pr.2.Add pr.1
        (ar.1, Event.logInfo "Printing a job" :: ar.2)
      else if newUiState = "splash" then
        ui1.Add ui1.splashPanel
      else (ui1, [])
    ({ step.1 with uiState := newUiState }, step.2)

/-- Embeds `verifyConnection()` (ui.go lines 118-167): send the watchdog
notification, query and classify, and swap panels only when the
classified mode differs from the recorded `UIState`. -/
def verifyConnection (ui : UI) (inp : TickInput) : UI × List Event :=
  let r := classifyPoll ui inp
  let st := installMode r.1 r.2.1
  (st.1, Event.sdNotify "WATCHDOG=1" :: (r.2.2 ++ st.2))

/-- The classification phase never touches the recorded mode. -/
theorem classifyPoll_uiState (ui : UI) (inp : TickInput) :
    (classifyPoll ui inp).1.uiState = ui.uiState := by
  unfold classifyPoll
  cases inp.poll <;> dsimp only <;> (repeat' split) <;> simp

/-- The classification phase never touches the current panel. -/
theorem classifyPoll_current (ui : UI) (inp : TickInput) :
    (classifyPoll ui inp).1.current = ui.current := by
  unfold classifyPoll
  cases inp.poll <;> dsimp only <;> (repeat' split) <;> simp

/-- The classification phase never touches the construction timestamp. -/
theorem classifyPoll_t (ui : UI) (inp : TickInput) :
    (classifyPoll ui inp).1.t = ui.t := by
  unfold classifyPoll
  cases inp.poll <;> dsimp only <;> (repeat' split) <;> simp

/-- The classification phase never touches the splash panel reference. -/
theorem classifyPoll_splashPanel (ui : UI) (inp : TickInput) :
    (classifyPoll ui inp).1.splashPanel = ui.splashPanel := by
  unfold classifyPoll
  cases inp.poll <;> dsimp only <;> (repeat' split) <;> simp

/-- The classification phase emits no navigator event. -/
theorem classifyPoll_events_nonNav (ui : UI) (inp : TickInput) :
    ∀ e ∈ (classifyPoll ui inp).2.2, e.isNav = false := by
  unfold classifyPoll
  cases inp.poll <;> dsimp only <;> (repeat' split) <;> simp [Event.isNav]

/-- Recognizer for detach events. -/
def Event.isDetach : Event → Bool
  | .Detach _ => true
  | _ => false

/-- Recognizer for attach events. -/
def Event.isAttach : Event → Bool
  | .Attach _ => true
  | _ => false

/-- Semantics of one event on the display slot's contents (the children
of the GTK grid cell): `Attach` appends a panel, `Detach` removes it,
visibility events do not change attachment. -/
def applyEvent (slot : List Panel) : Event → List Panel
  | .Attach p => slot ++ [p]
  | .Detach p => slot.erase p
  | _ => slot

/-- Run a trace of events over the display slot. -/
def applySlot (slot : List Panel) (evs : List Event) : List Panel :=
  evs.foldl applyEvent slot

/-- A freshly constructed UI used to instantiate theorems. -/
def sampleUI : UI := New "http://host:80" "apikey" 800 480 0

/-- Unfolded form of the tick, used to rewrite under `verifyConnection`. -/
theorem verifyConnection_eq (ui : UI) (inp : TickInput) :
    verifyConnection ui inp =
      ((installMode (classifyPoll ui inp).1 (classifyPoll ui inp).2.1).1,
        Event.sdNotify "WATCHDOG=1" ::
          ((classifyPoll ui inp).2.2 ++
            (installMode (classifyPoll ui inp).1 (classifyPoll ui inp).2.1).2)) := rfl

/-- The deferred assignment always records the classified mode. -/
theorem installMode_uiState (ui1 : UI) (m : String) :
    (installMode ui1 m).1.uiState = m := by
  unfold installMode UI.freshPanel UI.Add
  repeat' split
  all_goals simp

/-- The install phase never touches the splash label. -/
theorem installMode_splashLabel (ui1 : UI) (m : String) :
    (installMode ui1 m).1.splashLabel = ui1.splashLabel := by
  unfold installMode UI.freshPanel UI.Add
  repeat' split
  all_goals try simp
  all_goals cases ui1.current <;> simp

/-- The install phase never touches the construction timestamp. -/
theorem installMode_t (ui1 : UI) (m : String) :
    (installMode ui1 m).1.t = ui1.t := by
  unfold installMode UI.freshPanel UI.Add
  repeat' split
  all_goals try simp
  all_goals cases ui1.current <;> simp

/-- When the classified mode matches the recorded one the install phase
only re-records the mode and emits nothing. -/
theorem installMode_same (ui1 : UI) (m : String) (h : m = ui1.uiState) :
    installMode ui1 m = ({ ui1 with uiState := m }, []) := by
  unfold installMode
  rw [if_pos h]

/-- When the classified mode is `splash` and differs from the recorded
one, the install phase shows the pre-built splash panel. -/
theorem installMode_splash (ui1 : UI) (h : ui1.uiState ≠ "splash") :
    installMode ui1 "splash" =
      ({ (ui1.Add ui1.splashPanel).1 with uiState := "splash" },
        (ui1.Add ui1.splashPanel).2) := by
  unfold installMode
  rw [if_neg (fun hh => h hh.symm), if_neg (by decide), if_neg (by decide),
    if_pos rfl]

/-- `Add` never touches the splash label. -/
theorem Add_splashLabel (ui : UI) (p : Panel) :
    (ui.Add p).1.splashLabel = ui.splashLabel := by
  unfold UI.Add
  repeat' split
  all_goals simp

/-- `Add` installs its argument as the current panel. -/
theorem Add_current (ui : UI) (p : Panel) :
    (ui.Add p).1.current = some p := by
  unfold UI.Add
  repeat' split
  all_goals simp

/-- C10: `New(endpoint, key, width, height)` replaces BOTH stored
dimensions by the defaults (width 800, height 480) as soon as either
given dimension is zero — including a non-zero dimension paired with a
zero one — and stores both unchanged when both are non-zero. -/
theorem New_dimension_defaults (endpoint key : String) (width height : Int) (t0 : Nat) :
    ((width = 0 ∨ height = 0) →
      (New endpoint key width height t0).width = 800 ∧
      (New endpoint key width height t0).height = 480) ∧
    (width ≠ 0 → height ≠ 0 →
      (New endpoint key width height t0).width = width ∧
      (New endpoint key width height t0).height = height) := by
  unfold New
  constructor
  · rintro (h | h) <;> simp [h, WindowWidth, WindowHeight]
  · intro hw hh
    simp [hw, hh]

/-- Witness for C10: a non-zero width paired with a zero height is also
replaced by the 800x480 defaults. -/
theorem New_dimension_defaults_witness :
    (New "http://host:80" "apikey" 640 0 0).width = 800 ∧
    (New "http://host:80" "apikey" 640 0 0).height = 480 :=
  (New_dimension_defaults "http://host:80" "apikey" 640 0 0).1 (Or.inr rfl)

/-- C6: while a panel `c` is current, `Add p` detaches and hides `c`,
then shows and attaches `p`, in exactly that order: one detach of the old
panel, one attach of the new one, with the detach strictly before the
attach, and at every prefix of the trace at most one panel occupies the
display slot. -/
theorem Add_swap_trace (ui : UI) (p c : Panel) (h : ui.current = some c) :
    (ui.Add p).2 =
      [Event.Detach c, Event.Hide c, Event.Show p, Event.Attach p] ∧
    (ui.Add p).1.current = some p ∧
    ((ui.Add p).2.filter Event.isDetach) = [Event.Detach c] ∧
    ((ui.Add p).2.filter Event.isAttach) = [Event.Attach p] ∧
    ∀ n : Nat, (applySlot [c] (((ui.Add p).2).take n)).length ≤ 1 := by
  unfold UI.Add
  rw [h]
  refine ⟨rfl, rfl, by simp [Event.isDetach, Event.isAttach],
    by simp [Event.isDetach, Event.isAttach], ?_⟩
  intro n
  match n with
  | 0 => simp [applySlot]
  | 1 => simp [applySlot, applyEvent]
  | 2 => simp [applySlot, applyEvent]
  | 3 => simp [applySlot, applyEvent]
  | (m + 4) => simp [applySlot, applyEvent, List.take_succ_cons]

/-- Witness for C6: a concrete swap from panel 7 to panel 8. -/
theorem Add_swap_trace_witness :
    (({ sampleUI with current := some (Panel.root 7) } : UI).Add (Panel.root 8)).2 =
      [Event.Detach (Panel.root 7), Event.Hide (Panel.root 7),
        Event.Show (Panel.root 8), Event.Attach (Panel.root 8)] :=
  (Add_swap_trace { sampleUI with current := some (Panel.root 7) }
    (Panel.root 8) (Panel.root 7) rfl).1

/-- C7: when the current panel has a parent, `GoHistory` re-invokes `Add`
on exactly that parent value, which becomes the current panel — the same
identity, not a reconstructed panel. -/
theorem GoHistory_parent_identity (ui : UI) (c par : Panel)
    (hc : ui.current = some c) (hp : c.parent = some par) :
    ui.GoHistory = some (ui.Add par) ∧
    (ui.Add par).1.current = some par := by
  constructor
  · unfold UI.GoHistory
    rw [hc]
    dsimp only
    rw [hp]
  · exact Add_current ui par

/-- Witness for C7: going back from a child panel restores its recorded
parent `Panel.root 3`. -/
theorem GoHistory_parent_identity_witness :
    ({ sampleUI with current := some (Panel.child 5 (Panel.root 3)) } : UI).GoHistory =
      some (({ sampleUI with current := some (Panel.child 5 (Panel.root 3)) } : UI).Add
        (Panel.root 3)) ∧
    (({ sampleUI with current := some (Panel.child 5 (Panel.root 3)) } : UI).Add
      (Panel.root 3)).1.current = some (Panel.root 3) :=
  GoHistory_parent_identity { sampleUI with current := some (Panel.child 5 (Panel.root 3)) }
    (Panel.child 5 (Panel.root 3)) (Panel.root 3) rfl rfl

/-- A list-level infix witness makes the substring check true. -/
theorem containsSubstr_of_infix {s pat : String} (h : pat.data <:+: s.data) :
    containsSubstr s pat = true := by
  unfold containsSubstr
  exact decide_eq_true h

/-- C8: `errToUser` is a pure function of the error text, endpoint and
key-presence flag.  When the error text contains "connection refused" the
output mentions the (quoted) configured endpoint and carries the boolean
of whether a key was supplied; on any other error the output is the
generic fallback message containing the original error text. -/
theorem errToUser_format (ep k e : String) :
    (containsSubstr e "connection refused" = true →
      containsSubstr (errToUser ep k e) (goQuote ep) = true ∧
      containsSubstr (errToUser ep k e) ("(Key: " ++ goBool (k != "") ++ ")") = true) ∧
    (containsSubstr e "connection refused" = false →
      errToUser ep k e = "Unexpected error: " ++ e ∧
      containsSubstr (errToUser ep k e) e = true) := by
  constructor
  · intro h
    constructor
    · apply containsSubstr_of_infix
      refine ⟨("Unable to connect to " : String).data,
        (" (Key: " ++ goBool (k != "") ++
          "), \nmaybe OctoPrint not running?" : String).data, ?_⟩
      simp [errToUser, h, String.data_append]
    · apply containsSubstr_of_infix
      have hsplit1 : (" (Key: " : String).data =
          (" " : String).data ++ ("(Key: " : String).data := by decide
      have hsplit2 : ("), \nmaybe OctoPrint not running?" : String).data =
          (")" : String).data ++ (", \nmaybe OctoPrint not running?" : String).data := by
        decide
      refine ⟨("Unable to connect to " : String).data ++ (goQuote ep).data ++
        (" " : String).data,
        (", \nmaybe OctoPrint not running?" : String).data, ?_⟩
      simp [errToUser, h, String.data_append, hsplit1, hsplit2]
  · intro h
    have he : errToUser ep k e = "Unexpected error: " ++ e := by
      simp [errToUser, h]
    refine ⟨he, ?_⟩
    rw [he]
    apply containsSubstr_of_infix
    exact ⟨("Unexpected error: " : String).data, [], by simp [String.data_append]⟩

/-- Witness for C8: the refused-connection message for endpoint
`http://host:80` with a key supplied, and the generic fallback for a
plain timeout. -/
theorem errToUser_format_witness :
    containsSubstr
      (errToUser "http://host:80" "apikey" "dial tcp: connection refused")
      (goQuote "http://host:80") = true ∧
    errToUser "http://host:80" "apikey" "timeout" = "Unexpected error: " ++ "timeout" :=
  ⟨((errToUser_format "http://host:80" "apikey" "dial tcp: connection refused").1
      (by decide)).1,
    ((errToUser_format "http://host:80" "apikey" "timeout").2 (by decide)).1⟩

/-- C9: `errToUser` depends on the API key only through the boolean of
whether one was supplied: it factors through `errToUserFlag`, which never
receives the key, and any two keys that agree on emptiness produce
identical output — so the key value itself never flows into the message. -/
theorem errToUser_key_secrecy (ep k e : String) :
    errToUser ep k e = errToUserFlag ep (k != "") e ∧
    ∀ k2 : String, ((k = "") ↔ (k2 = "")) → errToUser ep k e = errToUser ep k2 e := by
  constructor
  · rfl
  · intro k2 hiff
    have hb : (k != "") = (k2 != "") := by
      by_cases hk : k = ""
      · have hk2 : k2 = "" := hiff.mp hk
        simp [hk, hk2]
      · have hk2 : ¬k2 = "" := fun hh => hk (hiff.mpr hh)
        simp [bne, beq_iff_eq, hk, hk2]
    show errToUserFlag ep (k != "") e = errToUserFlag ep (k2 != "") e
    exact congrArg (fun b => errToUserFlag ep b e) hb

/-- Witness for C9: two different non-empty keys yield the same message
for the same refused connection. -/
theorem errToUser_key_secrecy_witness :
    errToUser "http://host:80" "secret-key-1" "dial tcp: connection refused" =
      errToUser "http://host:80" "another-key" "dial tcp: connection refused" :=
  (errToUser_key_secrecy "http://host:80" "secret-key-1"
    "dial tcp: connection refused").2 "another-key" (by decide)

/-- A filter by a predicate false on every element gives the empty list. -/
theorem filter_eq_nil_of_false {α : Type} (p : α → Bool) (l : List α)
    (h : ∀ a ∈ l, p a = false) : l.filter p = [] := by
  induction l with
  | nil => rfl
  | cons a t ih =>
    simp only [List.filter_cons, h a (by simp)]
    exact ih (fun b hb => h b (by simp [hb]))

/-- C1: a tick whose classified target mode equals the recorded `UIState`
performs no panel swap: the current panel and recorded mode are left
unchanged and no attach/detach/show/hide event is emitted — the tick is a
no-op beyond the liveness signal and non-navigator effects. -/
theorem same_mode_tick_no_swap (ui : UI) (inp : TickInput)
    (h : (classifyPoll ui inp).2.1 = ui.uiState) :
    (verifyConnection ui inp).1.current = ui.current ∧
    (verifyConnection ui inp).1.uiState = ui.uiState ∧
    ∀ e ∈ (verifyConnection ui inp).2, e.isNav = false := by
  have hh : (classifyPoll ui inp).2.1 = (classifyPoll ui inp).1.uiState := by
    rw [classifyPoll_uiState, h]
  rw [verifyConnection_eq, installMode_same _ _ hh]
  refine ⟨?_, ?_, ?_⟩
  · simp [classifyPoll_current]
  · simp [h]
  · intro e he
    simp only [List.mem_cons, List.append_nil] at he
    rcases he with he | he
    · subst he
      rfl
    · exact classifyPoll_events_nonNav ui inp e he

/-- Witness for C1: a splash-mode tick on a UI already recorded in splash
mode leaves the panel, the mode, and the navigator untouched. -/
theorem same_mode_tick_no_swap_witness :
    (verifyConnection { sampleUI with uiState := "splash", current := some (Panel.root 0) }
        ⟨Except.error "dial tcp: connection refused", none, 0⟩).1.current =
      ({ sampleUI with uiState := "splash", current := some (Panel.root 0) } : UI).current ∧
    (verifyConnection { sampleUI with uiState := "splash", current := some (Panel.root 0) }
        ⟨Except.error "dial tcp: connection refused", none, 0⟩).1.uiState =
      ({ sampleUI with uiState := "splash", current := some (Panel.root 0) } : UI).uiState ∧
    ∀ e ∈ (verifyConnection { sampleUI with uiState := "splash", current := some (Panel.root 0) }
        ⟨Except.error "dial tcp: connection refused", none, 0⟩).2, e.isNav = false :=
  same_mode_tick_no_swap
    { sampleUI with uiState := "splash", current := some (Panel.root 0) }
    ⟨Except.error "dial tcp: connection refused", none, 0⟩ (by decide)

/-- C2: classification of a successful status query follows the
precedence operational, printing, error-or-offline (with a connect
attempt), connecting, first match wins; in particular a state reporting
both operational and printing classifies to `idle`. -/
theorem classify_precedence (ui : UI) (s : ConnectionState) (ce : Option String) (now : Nat) :
    (s.isOperational = true →
      (classifyPoll ui ⟨Except.ok s, ce, now⟩).2.1 = "idle") ∧
    (s.isOperational = false → s.isPrinting = true →
      (classifyPoll ui ⟨Except.ok s, ce, now⟩).2.1 = "printing") ∧
    (s.isOperational = false → s.isPrinting = false →
      (s.isError = true ∨ s.isOffline = true) →
      (classifyPoll ui ⟨Except.ok s, ce, now⟩).2.1 = "splash" ∧
        Event.connectAttempt ∈ (classifyPoll ui ⟨Except.ok s, ce, now⟩).2.2) ∧
    (s.isOperational = false → s.isPrinting = false → s.isError = false →
      s.isOffline = false →
      (classifyPoll ui ⟨Except.ok s, ce, now⟩).2.1 = "splash") ∧
    (s.isOperational = true ∧ s.isPrinting = true →
      (classifyPoll ui ⟨Except.ok s, ce, now⟩).2.1 = "idle") := by
  refine ⟨?_, ?_, ?_, ?_, ?_⟩
  · intro h1
    simp [classifyPoll, h1]
  · intro h1 h2
    simp [classifyPoll, h1, h2]
  · intro h1 h2 h3
    rcases h3 with h3 | h3 <;> cases ce <;> simp [classifyPoll, h1, h2, h3]
  · intro h1 h2 h3 h4
    by_cases h5 : s.isConnecting = true <;> simp [classifyPoll, h1, h2, h3, h4, h5]
  · rintro ⟨h1, h2⟩
    simp [classifyPoll, h1]

/-- Witness for C2: a state reporting operational and printing at once
classifies to `idle`. -/
theorem classify_precedence_witness :
    (classifyPoll sampleUI
      ⟨Except.ok ⟨true, true, false, false, false, "Operational"⟩, none, 0⟩).2.1 = "idle" :=
  (classify_precedence sampleUI ⟨true, true, false, false, false, "Operational"⟩
    none 0).2.2.2.2 ⟨rfl, rfl⟩

/-- C3 (amended): on a failed status query `d` ns after construction the
target mode is splash and the construction timestamp is never touched;
the splash label is unchanged when `d ≤ 30 s` and overwritten with the
formatted error when `d > 30 s` (the comparison is strict, so `d`
exactly 30 s leaves the label unchanged). -/
theorem query_failure_mercy (ui : UI) (e : String) (ce : Option String) (d : Nat) :
    (verifyConnection ui ⟨Except.error e, ce, ui.t + d⟩).1.uiState = "splash" ∧
    (verifyConnection ui ⟨Except.error e, ce, ui.t + d⟩).1.t = ui.t ∧
    (d ≤ errMercyPeriod →
      (verifyConnection ui ⟨Except.error e, ce, ui.t + d⟩).1.splashLabel =
        ui.splashLabel) ∧
    (errMercyPeriod < d →
      (verifyConnection ui ⟨Except.error e, ce, ui.t + d⟩).1.splashLabel =
        errToUser ui.endpoint ui.apiKey e) := by
  have hd : ui.t + d - ui.t = d := by omega
  have hmode : (classifyPoll ui ⟨Except.error e, ce, ui.t + d⟩).2.1 = "splash" := rfl
  have hlabel : (classifyPoll ui ⟨Except.error e, ce, ui.t + d⟩).1 =
      if errMercyPeriod < d
      then { ui with splashLabel := errToUser ui.endpoint ui.apiKey e }
      else ui := by
    unfold classifyPoll
    dsimp only
    rw [hd]
  rw [verifyConnection_eq, hmode, hlabel]
  refine ⟨installMode_uiState _ _, ?_, ?_, ?_⟩
  · rw [installMode_t]
    split <;> rfl
  · intro hle
    rw [installMode_splashLabel, if_neg (by omega)]
  · intro hlt
    rw [installMode_splashLabel, if_pos hlt]

/-- Witness for C3 (amended): one tick past the mercy window the error is
shown; five ns after construction it is suppressed. -/
theorem query_failure_mercy_witness :
    (verifyConnection sampleUI
        ⟨Except.error "network unreachable", none, sampleUI.t + (errMercyPeriod + 1)⟩).1.splashLabel =
      errToUser sampleUI.endpoint sampleUI.apiKey "network unreachable" ∧
    (verifyConnection sampleUI
        ⟨Except.error "network unreachable", none, sampleUI.t + 5⟩).1.splashLabel =
      sampleUI.splashLabel :=
  ⟨(query_failure_mercy sampleUI "network unreachable" none (errMercyPeriod + 1)).2.2.2
      (by omega),
    (query_failure_mercy sampleUI "network unreachable" none 5).2.2.1 (by decide)⟩

/-- Counterexample for C3 as stated: at exactly 30 s after construction
(`d = 30 s`, so `d ≥ 30`) the splash label is NOT overwritten with the
formatted error — the source compares with strict `>`. -/
theorem mercy_boundary_counterexample :
    (verifyConnection (New "http://host:80" "apikey" 800 480 0)
        ⟨Except.error "network unreachable", none, 30 * secondNs⟩).1.splashLabel = "" ∧
    errToUser "http://host:80" "apikey" "network unreachable" ≠ "" := by
  constructor
  · decide
  · decide

/-- C4: a successful query reporting error-or-offline (and neither
operational nor printing) triggers a connect attempt; when that attempt
fails the mode is splash and the splash label is set immediately to the
diagnostic string, at any time — no grace window on this path. -/
theorem connect_failure_immediate (ui : UI) (s : ConnectionState) (e : String) (now : Nat)
    (hop : s.isOperational = false) (hpr : s.isPrinting = false)
    (heo : s.isError = true ∨ s.isOffline = true) :
    Event.connectAttempt ∈ (verifyConnection ui ⟨Except.ok s, some e, now⟩).2 ∧
    (verifyConnection ui ⟨Except.ok s, some e, now⟩).1.uiState = "splash" ∧
    (verifyConnection ui ⟨Except.ok s, some e, now⟩).1.splashLabel =
      "Error connecting to printer: " ++ e := by
  have hclass : classifyPoll ui ⟨Except.ok s, some e, now⟩ =
      ({ ui with
          state := some s
          splashLabel := "Error connecting to printer: " ++ e },
        "splash", [Event.connectAttempt]) := by
    rcases heo with h3 | h3 <;> simp [classifyPoll, hop, hpr, h3]
  rw [verifyConnection_eq, hclass]
  refine ⟨?_, installMode_uiState _ _, ?_⟩
  · simp
  · rw [installMode_splashLabel]

/-- Witness for C4: an Error state whose reconnect attempt fails writes
the diagnostic label at tick time 0, inside any would-be grace window. -/
theorem connect_failure_immediate_witness :
    Event.connectAttempt ∈ (verifyConnection sampleUI
      ⟨Except.ok ⟨false, false, true, false, false, "Error"⟩,
        some "dial tcp: connection refused", 0⟩).2 ∧
    (verifyConnection sampleUI
      ⟨Except.ok ⟨false, false, true, false, false, "Error"⟩,
        some "dial tcp: connection refused", 0⟩).1.uiState = "splash" ∧
    (verifyConnection sampleUI
      ⟨Except.ok ⟨false, false, true, false, false, "Error"⟩,
        some "dial tcp: connection refused", 0⟩).1.splashLabel =
      "Error connecting to printer: " ++ "dial tcp: connection refused" :=
  connect_failure_immediate sampleUI ⟨false, false, true, false, false, "Error"⟩
    "dial tcp: connection refused" 0 rfl rfl (Or.inl rfl)

/-- Counterexample for C5 as stated: the freshly constructed UI records
the empty string, not "splash", and the very first tick that classifies
to splash DOES install the splash panel (an attach occurs). -/
theorem initial_mode_counterexample :
    (New "http://host:80" "apikey" 800 480 0).uiState ≠ "splash" ∧
    Event.Attach (Panel.root 0) ∈
      (verifyConnection (New "http://host:80" "apikey" 800 480 0)
        ⟨Except.error "dial tcp: connection refused", none, 0⟩).2 := by
  constructor
  · decide
  · decide

/-- C5 (amended): the initial recorded mode is the empty string — a
sentinel differing from all three modes — so a first tick classifying to
splash performs exactly one panel installation: it shows and attaches the
pre-built splash panel and records mode splash. -/
theorem initial_state_first_splash_install (ep k : String) (w h : Int) (t0 : Nat)
    (inp : TickInput)
    (hc : (classifyPoll (New ep k w h t0) inp).2.1 = "splash") :
    (New ep k w h t0).uiState = "" ∧
    (verifyConnection (New ep k w h t0) inp).1.uiState = "splash" ∧
    (verifyConnection (New ep k w h t0) inp).1.current = some (Panel.root 0) ∧
    ((verifyConnection (New ep k w h t0) inp).2.filter Event.isNav) =
      [Event.Show (Panel.root 0), Event.Attach (Panel.root 0)] := by
  have h0 : (New ep k w h t0).uiState = "" := rfl
  have h1 : (classifyPoll (New ep k w h t0) inp).1.uiState = "" :=
    (classifyPoll_uiState _ _).trans h0
  have hne : (classifyPoll (New ep k w h t0) inp).1.uiState ≠ "splash" := by
    rw [h1]
    decide
  have hcur : (classifyPoll (New ep k w h t0) inp).1.current = none :=
    (classifyPoll_current _ _).trans rfl
  have hsp : (classifyPoll (New ep k w h t0) inp).1.splashPanel = Panel.root 0 :=
    (classifyPoll_splashPanel _ _).trans rfl
  have hAdd : (classifyPoll (New ep k w h t0) inp).1.Add
        ((classifyPoll (New ep k w h t0) inp).1.splashPanel) =
      ({ (classifyPoll (New ep k w h t0) inp).1 with
          current := some ((classifyPoll (New ep k w h t0) inp).1.splashPanel) },
        [Event.Show ((classifyPoll (New ep k w h t0) inp).1.splashPanel),
          Event.Attach ((classifyPoll (New ep k w h t0) inp).1.splashPanel)]) := by
    unfold UI.Add
    rw [hcur]
  have hfil : ((classifyPoll (New ep k w h t0) inp).2.2.filter Event.isNav) = [] :=
    filter_eq_nil_of_false _ _ (classifyPoll_events_nonNav _ _)
  rw [verifyConnection_eq, hc, installMode_splash _ hne, hAdd]
  refine ⟨h0, by simp, ?_, ?_⟩
  · simp [hsp]
  · simp [List.filter_append, hfil, Event.isNav, hsp]

/-- Witness for C5 (amended): a concrete first tick with a failing query
installs the splash panel once. -/
theorem initial_state_first_splash_install_witness :
    (New "http://host:80" "apikey" 800 480 0).uiState = "" ∧
    (verifyConnection (New "http://host:80" "apikey" 800 480 0)
        ⟨Except.error "connection refused by peer", none, 0⟩).1.uiState = "splash" ∧
    (verifyConnection (New "http://host:80" "apikey" 800 480 0)
        ⟨Except.error "connection refused by peer", none, 0⟩).1.current =
      some (Panel.root 0) ∧
    ((verifyConnection (New "http://host:80" "apikey" 800 480 0)
        ⟨Except.error "connection refused by peer", none, 0⟩).2.filter Event.isNav) =
      [Event.Show (Panel.root 0), Event.Attach (Panel.root 0)] :=
  initial_state_first_splash_install "http://host:80" "apikey" 800 480 0
    ⟨Except.error "connection refused by peer", none, 0⟩ rfl

end OctoScreen
